import Mathlib

set_option linter.unusedVariables false

/-!
Shallow embedding of the OBS MoQ source plugin core (moq-source.cpp):
the connection-lifecycle state machine (generation counter, handle
registry, reconnect orchestration) and the frame-decode pipeline
(keyframe gating, bounded error recovery, dynamic scaler/buffer
reinitialization).

Modelling conventions:
- The C struct moq_source becomes the Lean structure MoqSource.
  Handle fields keep their int32 representation (negative = invalid).
  Pointer fields that only matter as present/absent (codec_ctx) become
  Bool; the swscale context keeps the parameters it was built from so
  that replacement is observable; the output pixel buffer is modelled
  by its byte size.
- Calls into external libraries (MoQ transport, libavcodec, swscale,
  OBS) are modelled by environment records carrying the results the
  library would return, and by an effect trace recording the calls the
  code performs, in program order.
- Each C function becomes a pure Lean function from the state (plus an
  environment) to the new state and its effect trace.  Locks are not
  represented: each embedded function models one uninterrupted
  execution, except where the source releases the lock mid-callback;
  there the environment carries the state transformation performed by
  other threads during the unlocked window (field mid of CatalogEnv).
- uint32_t generation arithmetic wraps modulo 2 ^ 32.
-/

namespace MoqObs

/-- FFmpeg codec identifiers reachable from codec_string_to_id. -/
inductive AVCodecID where
  | none
  | h264
  | hevc
  | vp9
  | av1
  | vp8
  deriving DecidableEq, Repr

/-- AV_PIX_FMT_NONE; pixel formats are kept as raw ints. -/
def AV_PIX_FMT_NONE : Int := -1

/-- AVERROR(EAGAIN): the distinguished needs-more-input return code. -/
def AVERROR_EAGAIN : Int := -11

/-- uint32_t modulus for the generation counter. -/
def UINT32_MOD : Nat := 2 ^ 32

/-- First n = p.length characters of s compared case-insensitively with p,
guarded by len >= n, mirroring the strncasecmp calls in codec_string_to_id. -/
def ciPrefix (s p : String) : Bool :=
  p.length ≤ s.length &&
    ((s.toList.take p.length).map Char.toLower == (p.toList.map Char.toLower))

/-- Translation of codec_string_to_id (moq-source.cpp lines 21-60). -/
def codec_string_to_id (codec : String) : AVCodecID :=
  if codec.length = 0 then AVCodecID.none
  else if ciPrefix codec "h264" || ciPrefix codec "avc1" || ciPrefix codec "avc" then
    AVCodecID.h264
  else if ciPrefix codec "hevc" || ciPrefix codec "h265" || ciPrefix codec "hev1" ||
      ciPrefix codec "hvc1" then
    AVCodecID.hevc
  else if ciPrefix codec "vp9" || ciPrefix codec "vp09" then
    AVCodecID.vp9
  else if ciPrefix codec "av1" || ciPrefix codec "av01" then
    AVCodecID.av1
  else if ciPrefix codec "vp8" then
    AVCodecID.vp8
  else AVCodecID.none

/-- Parameters a swscale context was created from (source dimensions and
pixel format; destination is always the same dimensions in RGBA). -/
structure SwsCtx where
  srcW : Int
  srcH : Int
  srcFmt : Int
  deriving DecidableEq, Repr

/-- The struct moq_source state (moq-source.cpp lines 62-96).  The obs
frame member is flattened into its width/height/linesize/timestamp and
the separately tracked pixel buffer (frame_buffer, by byte size). -/
structure MoqSource where
  shutting_down : Bool
  generation : Nat
  reconnect_in_progress : Bool
  origin : Int
  session : Int
  consume : Int
  catalog_handle : Int
  video_track : Int
  codec_ctx : Bool
  current_codec_id : AVCodecID
  current_pix_fmt : Int
  sws_ctx : Option SwsCtx
  got_keyframe : Bool
  frames_waiting_for_keyframe : Nat
  consecutive_decode_errors : Nat
  frame_width : Nat
  frame_height : Nat
  frame_linesize0 : Nat
  frame_timestamp : Int
  frame_buffer : Option Nat
  url : Option String
  broadcast : Option String
  deriving DecidableEq, Repr

/-- The state set up by moq_source_create (lines 117-158) before the
initial moq_source_update call. -/
def initSource : MoqSource :=
  { shutting_down := false
    generation := 0
    reconnect_in_progress := false
    origin := -1
    session := -1
    consume := -1
    catalog_handle := -1
    video_track := -1
    codec_ctx := false
    current_codec_id := AVCodecID.none
    current_pix_fmt := AV_PIX_FMT_NONE
    sws_ctx := Option.none
    got_keyframe := false
    frames_waiting_for_keyframe := 0
    consecutive_decode_errors := 0
    frame_width := 0
    frame_height := 0
    frame_linesize0 := 0
    frame_timestamp := 0
    frame_buffer := Option.none
    url := Option.none
    broadcast := Option.none }

/-- Externally visible calls the code makes, recorded in program order. -/
inductive Effect where
  | closeFrame (id : Int)
  | closeTrack (id : Int)
  | closeCatalog (id : Int)
  | closeConsume (id : Int)
  | closeSession (id : Int)
  | closeOrigin (id : Int)
  | flushDecoder
  | sendPacket (size : Nat) (pts : Int)
  | createSws (w h : Int) (fmt : Int)
  | allocBuffer (size : Nat)
  | outputVideo (w h : Nat) (ts : Int)
  | blankVideo
  | bumpGeneration (g : Nat)
  | openOrigin
  | connectSession
  | subscribeTrack
  | sleep (ms : Nat)
  deriving DecidableEq, Repr

/-- Generation-increment effects. -/
def Effect.isBump : Effect → Bool
  | Effect.bumpGeneration _ => true
  | _ => false

/-- Effects that open a new handle or connection. -/
def Effect.isOpen : Effect → Bool
  | Effect.openOrigin => true
  | Effect.connectSession => true
  | Effect.subscribeTrack => true
  | _ => false

/-- Submissions of a compressed unit to the decoder. -/
def Effect.isSend : Effect → Bool
  | Effect.sendPacket _ _ => true
  | _ => false

/-- Deliveries of a decoded image to the renderer. -/
def Effect.isOutput : Effect → Bool
  | Effect.outputVideo _ _ _ => true
  | _ => false

/-- Allocation attempts made while rebuilding the conversion path. -/
def Effect.isAlloc : Effect → Bool
  | Effect.createSws _ _ _ => true
  | Effect.allocBuffer _ => true
  | _ => false

/-- Teardown rank of a handle-close effect: child handles rank lower and
must be closed first (track < catalog < consume < session < origin). -/
def closeRank : Effect → Option Nat
  | Effect.closeTrack _ => some 0
  | Effect.closeCatalog _ => some 1
  | Effect.closeConsume _ => some 2
  | Effect.closeSession _ => some 3
  | Effect.closeOrigin _ => some 4
  | _ => Option.none

/-- A guarded close call: the source closes a handle only when it is
non-negative. -/
def optClose (h : Int) (mk : Int → Effect) : List Effect :=
  if 0 ≤ h then [mk h] else []

/-- One compressed unit as returned by moq_consume_frame_chunk. -/
structure MoqFrameData where
  keyframe : Bool
  payload_size : Nat
  timestamp_us : Int
  deriving DecidableEq, Repr

/-- The AVFrame fields the pipeline reads from a decoded image. -/
structure DecodedFrame where
  width : Int
  height : Int
  format : Int
  deriving DecidableEq, Repr

/-- Results of the external calls made by moq_source_decode_frame:
the chunk read (Option.none models a negative return), the two libav
allocations, the send/receive return codes, the decoded image (read
when recv_ret is non-negative), and the success of sws_getContext and
of the pixel-buffer allocation. -/
structure DecodeEnv where
  chunk : Option MoqFrameData
  packet_alloc : Bool
  send_ret : Int
  frame_alloc : Bool
  recv_ret : Int
  decoded : DecodedFrame
  sws_ok : Bool
  malloc_ok : Bool
  deriving DecidableEq, Repr

/-- Video configuration delivered by the catalog (moq_video_config). -/
structure VideoConfig where
  codec : String
  coded_width : Option Nat
  coded_height : Option Nat
  description_len : Nat
  deriving DecidableEq, Repr

/-- Results of the external calls made by moq_source_init_decoder. -/
structure InitEnv where
  decoder_found : Bool
  alloc_ctx_ok : Bool
  open_ok : Bool
  parsed_width : Nat
  parsed_height : Nat
  deriving DecidableEq, Repr

/-- Translation of moq_source_destroy_decoder_locked (lines 739-760). -/
def moq_source_destroy_decoder_locked (ctx : MoqSource) : MoqSource :=
  { ctx with
      sws_ctx := Option.none
      codec_ctx := false
      frame_buffer := Option.none
      current_codec_id := AVCodecID.none
      current_pix_fmt := AV_PIX_FMT_NONE }

/-- Translation of moq_source_disconnect_locked (lines 585-616): close
track, catalog, consume, session, origin in that order (each only when
valid), destroy the decoder, reset the keyframe and error counters. -/
def moq_source_disconnect_locked (ctx : MoqSource) : MoqSource × List Effect :=
  let effs := optClose ctx.video_track Effect.closeTrack
      ++ optClose ctx.catalog_handle Effect.closeCatalog
      ++ optClose ctx.consume Effect.closeConsume
      ++ optClose ctx.session Effect.closeSession
      ++ optClose ctx.origin Effect.closeOrigin
  let s1 := { ctx with
      video_track := if 0 ≤ ctx.video_track then -1 else ctx.video_track
      catalog_handle := if 0 ≤ ctx.catalog_handle then -1 else ctx.catalog_handle
      consume := if 0 ≤ ctx.consume then -1 else ctx.consume
      session := if 0 ≤ ctx.session then -1 else ctx.session
      origin := if 0 ≤ ctx.origin then -1 else ctx.origin }
  let s2 := moq_source_destroy_decoder_locked s1
  ({ s2 with
      got_keyframe := false
      frames_waiting_for_keyframe := 0
      consecutive_decode_errors := 0 }, effs)

/-- Results of the external calls made by moq_source_reconnect. -/
structure ReconnectEnv where
  origin_ret : Int
  session_ret : Int
  deriving DecidableEq, Repr

/-- Translation of moq_source_reconnect (lines 429-503).  The final
generation re-check of the source is kept even though, in this
single-execution model, the generation cannot have changed. -/
def moq_source_reconnect (ctx : MoqSource) (env : ReconnectEnv) : MoqSource × List Effect :=
  if ctx.reconnect_in_progress then (ctx, [])
  else
    let new_gen := (ctx.generation + 1) % UINT32_MOD
    let s1 := { ctx with reconnect_in_progress := true, generation := new_gen }
    let s2 := (moq_source_disconnect_locked s1).1
    let pre := (moq_source_disconnect_locked s1).2
        ++ [Effect.blankVideo, Effect.sleep 50, Effect.openOrigin]
    if env.origin_ret < 0 then
      ({ s2 with reconnect_in_progress := false }, Effect.bumpGeneration new_gen :: pre)
    else
      let pre := pre ++ [Effect.connectSession]
      if env.session_ret < 0 then
        ({ s2 with reconnect_in_progress := false },
         Effect.bumpGeneration new_gen :: pre ++ [Effect.closeOrigin env.origin_ret])
      else if s2.generation ≠ new_gen then
        ({ s2 with reconnect_in_progress := false },
         Effect.bumpGeneration new_gen ::
           pre ++ [Effect.closeSession env.session_ret, Effect.closeOrigin env.origin_ret])
      else
        ({ s2 with
            origin := env.origin_ret
            session := env.session_ret
            reconnect_in_progress := false }, Effect.bumpGeneration new_gen :: pre)

/-- The per-setting change test of moq_source_update (lines 205-210):
an unset stored string counts as changed only when the incoming string
is non-empty. -/
def settingsChanged (stored : Option String) (incoming : String) : Bool :=
  match stored with
  | Option.none => decide (0 < incoming.length)
  | some s => decide (s ≠ incoming)

/-- Translation of moq_source_update (lines 195-237).  The incoming
settings strings are never null (obs_data_get_string returns an empty
string), so only the stored strings carry the Option. -/
def moq_source_update (ctx : MoqSource) (url broadcast : String)
    (renv : ReconnectEnv) : MoqSource × List Effect :=
  let settings_changed := settingsChanged ctx.url url || settingsChanged ctx.broadcast broadcast
  let s1 := { ctx with url := some url, broadcast := some broadcast }
  let valid : Bool := decide (0 < url.length) && decide (0 < broadcast.length)
  if settings_changed && valid then
    moq_source_reconnect s1 renv
  else if settings_changed && !valid then
    ((moq_source_disconnect_locked s1).1,
     (moq_source_disconnect_locked s1).2 ++ [Effect.blankVideo])
  else (s1, [])

/-- Translation of moq_source_init_decoder (lines 626-736): map the
codec string, find and open a decoder, then swap in the fresh decoder
state; the scaler, pixel buffer and pixel format are left unset, to be
created from the first decoded frame. -/
def moq_source_init_decoder (ctx : MoqSource) (config : VideoConfig)
    (env : InitEnv) : MoqSource × Bool :=
  let codec_id := codec_string_to_id config.codec
  if codec_id = AVCodecID.none then (ctx, false)
  else if env.decoder_found = false then (ctx, false)
  else if env.alloc_ctx_ok = false then (ctx, false)
  else
    let width0 := match config.coded_width with
      | some w => if 0 < w then w else 0
      | Option.none => 0
    let height0 := match config.coded_height with
      | some h => if 0 < h then h else 0
      | Option.none => 0
    if env.open_ok = false then (ctx, false)
    else
      let width := if width0 = 0 ∧ 0 < env.parsed_width then env.parsed_width else width0
      let height := if height0 = 0 ∧ 0 < env.parsed_height then env.parsed_height else height0
      ({ ctx with
          codec_ctx := true
          current_codec_id := codec_id
          current_pix_fmt := AV_PIX_FMT_NONE
          sws_ctx := Option.none
          frame_buffer := Option.none
          frame_width := width
          frame_height := height
          frame_linesize0 := width * 4
          frame_timestamp := 0
          got_keyframe := false
          frames_waiting_for_keyframe := 0
          consecutive_decode_errors := 0 }, true)

/-- Keyframe bookkeeping (lines 810-820): on a keyframe, the flag is
set and both counters reset.  The flush effect of the first keyframe is
computed separately by the caller from the pre-state. -/
def mark_keyframe (ctx : MoqSource) (kf : Bool) : MoqSource :=
  if kf then
    { ctx with
        got_keyframe := true
        frames_waiting_for_keyframe := 0
        consecutive_decode_errors := 0 }
  else ctx

/-- The shared decode-failure bookkeeping (lines 841-854 and 872-886):
increment the consecutive-error counter; at 5, flush the decoder and
reset the counter and the keyframe flag. -/
def decode_error_step (ctx : MoqSource) (frame_id : Int) (pre : List Effect) :
    MoqSource × List Effect :=
  let n := ctx.consecutive_decode_errors + 1
  if 5 ≤ n then
    ({ ctx with consecutive_decode_errors := 0, got_keyframe := false },
     pre ++ [Effect.flushDecoder, Effect.closeFrame frame_id])
  else
    ({ ctx with consecutive_decode_errors := n }, pre ++ [Effect.closeFrame frame_id])

/-- The successful-decode tail of moq_source_decode_frame (lines
895-1001): compare the decoded image against the current conversion
state, validate and rebuild the scaler and the pixel buffer when
needed, then convert and deliver the image. -/
def decode_output (ctx : MoqSource) (frame_id : Int) (fd : MoqFrameData)
    (f : DecodedFrame) (env : DecodeEnv) (pre : List Effect) :
    MoqSource × List Effect :=
  let dimensions_changed := f.width ≠ (ctx.frame_width : Int) ∨ f.height ≠ (ctx.frame_height : Int)
  let pix_fmt_changed := f.format ≠ ctx.current_pix_fmt
  if ctx.sws_ctx = Option.none ∨ ctx.frame_buffer = Option.none ∨
      dimensions_changed ∨ pix_fmt_changed then
    if f.width ≤ 0 ∨ f.height ≤ 0 ∨ 16384 < f.width ∨ 16384 < f.height then
      (ctx, pre ++ [Effect.closeFrame frame_id])
    else if f.format = AV_PIX_FMT_NONE then
      (ctx, pre ++ [Effect.closeFrame frame_id])
    else
      let s1 := { ctx with sws_ctx := Option.none }
      let pre := pre ++ [Effect.createSws f.width f.height f.format]
      if env.sws_ok = false then (s1, pre ++ [Effect.closeFrame frame_id])
      else
        let size := f.width.toNat * f.height.toNat * 4
        let pre := pre ++ [Effect.allocBuffer size]
        if env.malloc_ok = false then (s1, pre ++ [Effect.closeFrame frame_id])
        else
          let s2 := { s1 with
              sws_ctx := some { srcW := f.width, srcH := f.height, srcFmt := f.format }
              current_pix_fmt := f.format
              frame_buffer := some size
              frame_width := f.width.toNat
              frame_height := f.height.toNat
              frame_linesize0 := f.width.toNat * 4
              frame_timestamp := fd.timestamp_us }
          (s2, pre ++ [Effect.outputVideo f.width.toNat f.height.toNat fd.timestamp_us,
                Effect.closeFrame frame_id])
  else
    ({ ctx with frame_timestamp := fd.timestamp_us },
     pre ++ [Effect.outputVideo ctx.frame_width ctx.frame_height fd.timestamp_us,
       Effect.closeFrame frame_id])

/-- The submit/receive section of moq_source_decode_frame (lines
822-895): allocate a packet, send it, then receive; EAGAIN on either
side is not an error; other failures go through decode_error_step; a
received image resets the error counter and goes to decode_output. -/
def decode_send (ctx : MoqSource) (frame_id : Int) (fd : MoqFrameData)
    (env : DecodeEnv) (pre : List Effect) : MoqSource × List Effect :=
  if env.packet_alloc = false then (ctx, pre ++ [Effect.closeFrame frame_id])
  else
    let pre := pre ++ [Effect.sendPacket fd.payload_size (fd.timestamp_us / 1000)]
    if env.send_ret < 0 then
      if env.send_ret = AVERROR_EAGAIN then (ctx, pre ++ [Effect.closeFrame frame_id])
      else decode_error_step ctx frame_id pre
    else if env.frame_alloc = false then (ctx, pre ++ [Effect.closeFrame frame_id])
    else if env.recv_ret < 0 then
      if env.recv_ret = AVERROR_EAGAIN then (ctx, pre ++ [Effect.closeFrame frame_id])
      else decode_error_step ctx frame_id pre
    else
      decode_output { ctx with consecutive_decode_errors := 0 } frame_id fd env.decoded env pre

/-- Translation of moq_source_decode_frame (lines 762-1001): shutdown
and decoder-validity checks, chunk read, keyframe gating, then the
submit/receive/convert path.  The frame handle is closed on every
path. -/
def moq_source_decode_frame (ctx : MoqSource) (frame_id : Int)
    (env : DecodeEnv) : MoqSource × List Effect :=
  if ctx.shutting_down then (ctx, [Effect.closeFrame frame_id])
  else if ctx.codec_ctx = false then (ctx, [Effect.closeFrame frame_id])
  else
    match env.chunk with
    | Option.none => (ctx, [Effect.closeFrame frame_id])
    | some fd =>
      if ctx.got_keyframe = false ∧ fd.keyframe = false then
        ({ ctx with frames_waiting_for_keyframe := ctx.frames_waiting_for_keyframe + 1 },
         [Effect.closeFrame frame_id])
      else
        let kfEffs := if fd.keyframe = true ∧ ctx.got_keyframe = false
          then [Effect.flushDecoder] else []
        decode_send (mark_keyframe ctx fd.keyframe) frame_id fd env kfEffs

/-- Translation of on_video_frame (lines 392-426): error ids are
dropped; the shutdown flag and the consume handle are checked (the
callback carries no generation tag); then the frame is decoded. -/
def on_video_frame (ctx : MoqSource) (frame_id : Int) (env : DecodeEnv) :
    MoqSource × List Effect :=
  if frame_id < 0 then (ctx, [])
  else if ctx.shutting_down then (ctx, [Effect.closeFrame frame_id])
  else if ctx.consume < 0 then (ctx, [Effect.closeFrame frame_id])
  else moq_source_decode_frame ctx frame_id env

/-- Results of the external calls made by on_catalog, and the state
transformation performed by other threads while the lock is released
between the entry checks and the final install step. -/
structure CatalogEnv where
  config_ret : Option VideoConfig
  init_env : InitEnv
  track_ret : Int
  mid : MoqSource → MoqSource

/-- Translation of on_catalog (lines 309-390): entry checks capture the
current generation; the decoder is configured and the track subscribed
with the lock released; the handles are installed only if the
generation is unchanged, otherwise both are closed. -/
def on_catalog (ctx : MoqSource) (catalog : Int) (env : CatalogEnv) :
    MoqSource × List Effect :=
  if ctx.shutting_down then
    (ctx, if 0 ≤ catalog then [Effect.closeCatalog catalog] else [])
  else if ctx.consume < 0 then
    (ctx, if 0 ≤ catalog then [Effect.closeCatalog catalog] else [])
  else
    let current_gen := ctx.generation
    if catalog < 0 then (ctx, [Effect.blankVideo])
    else
      match env.config_ret with
      | Option.none => (ctx, [Effect.closeCatalog catalog])
      | some config =>
        let s1 := (moq_source_init_decoder ctx config env.init_env).1
        if (moq_source_init_decoder ctx config env.init_env).2 = false then
          (ctx, [Effect.closeCatalog catalog])
        else if env.track_ret < 0 then
          (s1, [Effect.subscribeTrack, Effect.closeCatalog catalog])
        else
          let s2 := env.mid s1
          if s2.generation = current_gen then
            ({ s2 with video_track := env.track_ret, catalog_handle := catalog },
             [Effect.subscribeTrack])
          else
            (s2, [Effect.subscribeTrack, Effect.closeTrack env.track_ret,
              Effect.closeCatalog catalog])

/-- Translation of moq_source_destroy (lines 160-193): set the shutdown
flag, disconnect, and sleep before freeing. -/
def moq_source_destroy (ctx : MoqSource) : MoqSource × List Effect :=
  let s1 := { ctx with shutting_down := true }
  ((moq_source_disconnect_locked s1).1,
   (moq_source_disconnect_locked s1).2 ++ [Effect.sleep 100])

/-- Sequential processing of a list of incoming frames, each with its
own external-call results; the frame ids play no role and are fixed. -/
def moq_decode_seq (ctx : MoqSource) (envs : List DecodeEnv) : MoqSource × List Effect :=
  match envs with
  | [] => (ctx, [])
  | e :: rest =>
    let step := moq_source_decode_frame ctx 0 e
    let tail := moq_decode_seq step.1 rest
    (tail.1, step.2 ++ tail.2)

/-- The pixel-buffer size invariant: when the output buffer is
allocated, its size is width times height times 4 bytes for the current
frame dimensions. -/
def bufferSizeInv (s : MoqSource) : Prop :=
  s.frame_buffer = Option.none ∨
    s.frame_buffer = some (s.frame_width * s.frame_height * 4)

/-- No generation-increment effect occurs in the list. -/
def noBump (l : List Effect) : Prop := ∀ e ∈ l, e.isBump = false

/-- A concrete environment delivering one non-keyframe unit that would
decode successfully. -/
def envNonKey : DecodeEnv :=
  { chunk := some { keyframe := false, payload_size := 100, timestamp_us := 1000 }
    packet_alloc := true
    send_ret := 0
    frame_alloc := true
    recv_ret := 0
    decoded := { width := 640, height := 360, format := 0 }
    sws_ok := true
    malloc_ok := true }

/-- The live state of a generation-2 connection: decoder configured,
all handles installed, no keyframe seen yet. -/
def staleFrameState : MoqSource :=
  { initSource with
      generation := 2
      origin := 1
      session := 2
      consume := 3
      catalog_handle := 4
      video_track := 5
      codec_ctx := true }

/-! ### Helper lemmas -/

theorem mem_optClose {e : Effect} {h : Int} {mk : Int → Effect}
    (hm : e ∈ optClose h mk) : e = mk h := by
  unfold optClose at hm
  split at hm
  · simpa using hm
  · simp at hm

theorem disc_mem {ctx : MoqSource} {e : Effect}
    (he : e ∈ (moq_source_disconnect_locked ctx).2) :
    e = Effect.closeTrack ctx.video_track ∨ e = Effect.closeCatalog ctx.catalog_handle ∨
    e = Effect.closeConsume ctx.consume ∨ e = Effect.closeSession ctx.session ∨
    e = Effect.closeOrigin ctx.origin := by
  unfold moq_source_disconnect_locked at he
  simp only [List.append_assoc, List.mem_append] at he
  rcases he with h | h | h | h | h
  · exact Or.inl (mem_optClose h)
  · exact Or.inr (Or.inl (mem_optClose h))
  · exact Or.inr (Or.inr (Or.inl (mem_optClose h)))
  · exact Or.inr (Or.inr (Or.inr (Or.inl (mem_optClose h))))
  · exact Or.inr (Or.inr (Or.inr (Or.inr (mem_optClose h))))

theorem disc_closes_only {ctx : MoqSource} {e : Effect}
    (he : e ∈ (moq_source_disconnect_locked ctx).2) :
    e.isBump = false ∧ e.isOpen = false ∧ e.isSend = false ∧ e.isOutput = false := by
  rcases disc_mem he with rfl | rfl | rfl | rfl | rfl <;> exact ⟨rfl, rfl, rfl, rfl⟩

theorem disc_handles_invalid (ctx : MoqSource) :
    (moq_source_disconnect_locked ctx).1.video_track < 0 ∧
    (moq_source_disconnect_locked ctx).1.catalog_handle < 0 ∧
    (moq_source_disconnect_locked ctx).1.consume < 0 ∧
    (moq_source_disconnect_locked ctx).1.session < 0 ∧
    (moq_source_disconnect_locked ctx).1.origin < 0 ∧
    (moq_source_disconnect_locked ctx).1.codec_ctx = false := by
  unfold moq_source_disconnect_locked moq_source_destroy_decoder_locked
  refine ⟨?_, ?_, ?_, ?_, ?_, rfl⟩ <;> dsimp only <;> split <;> omega

theorem disc_generation (ctx : MoqSource) :
    (moq_source_disconnect_locked ctx).1.generation = ctx.generation := rfl

theorem disc_rank_chain (ctx : MoqSource) :
    List.Chain' (· < ·) ((moq_source_disconnect_locked ctx).2.filterMap closeRank) := by
  unfold moq_source_disconnect_locked optClose
  dsimp only
  split <;> split <;> split <;> split <;> split <;>
    simp [closeRank, List.filterMap_append, List.chain'_cons, List.Chain']

theorem noBump_append {l m : List Effect} (hl : noBump l) (hm : noBump m) :
    noBump (l ++ m) := by
  intro e he
  rcases List.mem_append.mp he with h | h
  · exact hl e h
  · exact hm e h

theorem noBump_pre (s : MoqSource) :
    noBump ((moq_source_disconnect_locked s).2
      ++ [Effect.blankVideo, Effect.sleep 50, Effect.openOrigin]) := by
  refine noBump_append (fun e he => (disc_closes_only he).1) ?_
  intro e he
  simp only [List.mem_cons, List.not_mem_nil, or_false] at he
  rcases he with rfl | rfl | rfl <;> rfl

theorem reconnect_shape (ctx : MoqSource) (env : ReconnectEnv)
    (h : ctx.reconnect_in_progress = false) :
    (moq_source_reconnect ctx env).1.generation = (ctx.generation + 1) % UINT32_MOD ∧
    ∃ rest, (moq_source_reconnect ctx env).2 =
        Effect.bumpGeneration ((ctx.generation + 1) % UINT32_MOD) :: rest ∧ noBump rest := by
  unfold moq_source_reconnect
  rw [if_neg (by simp [h])]
  dsimp only
  split
  · exact ⟨rfl, _, rfl, noBump_pre _⟩
  · split
    · refine ⟨rfl, _, rfl, noBump_append (noBump_append (noBump_pre _) ?_) ?_⟩ <;>
        (intro e he; simp only [List.mem_cons, List.not_mem_nil, or_false] at he)
      · subst he; rfl
      · subst he; rfl
    · split
      · refine ⟨rfl, _, rfl, noBump_append (noBump_append (noBump_pre _) ?_) ?_⟩ <;>
          (intro e he; simp only [List.mem_cons, List.not_mem_nil, or_false] at he)
        · subst he; rfl
        · rcases he with rfl | rfl <;> rfl
      · refine ⟨rfl, _, rfl, noBump_append (noBump_pre _) ?_⟩
        intro e he
        simp only [List.mem_cons, List.not_mem_nil, or_false] at he
        subst he; rfl

/-! ### Claim theorems -/

/-- C10: if a frame callback is processed while no decoder is configured
(the codec context is null), the frame is discarded with its handle
closed and no field of the source state is mutated. -/
theorem C10_no_decoder_frame_dropped (ctx : MoqSource) (frame_id : Int) (env : DecodeEnv)
    (hfid : 0 ≤ frame_id) (hcc : ctx.codec_ctx = false) :
    on_video_frame ctx frame_id env = (ctx, [Effect.closeFrame frame_id]) := by
  unfold on_video_frame moq_source_decode_frame
  rw [if_neg (not_lt.mpr hfid)]
  split
  · rfl
  · split
    · rfl
    · simp [hcc]

theorem C10_witness :
    on_video_frame initSource 3 envNonKey = (initSource, [Effect.closeFrame 3]) :=
  C10_no_decoder_frame_dropped initSource 3 envNonKey (by decide) rfl

/-- C1: refuted on the code at a concrete input.  The frame callback
on_video_frame carries no generation tag and stores no epoch at request
time: it validates only the shutdown flag and the consume handle.  So a
frame issued under generation 1 that is delivered when the current
generation is 2 (after a reconnect has installed the new consume handle
and decoder) is processed by the live pipeline and mutates decode state
(here the keyframe-wait skip counter), instead of being discarded with
zero mutation; its frame handle is closed. -/
theorem C1_stale_frame_mutates :
    staleFrameState.generation = 2 ∧
    staleFrameState.frames_waiting_for_keyframe = 0 ∧
    (on_video_frame staleFrameState 7 envNonKey).1.frames_waiting_for_keyframe = 1 ∧
    (on_video_frame staleFrameState 7 envNonKey).1 ≠ staleFrameState ∧
    Effect.closeFrame 7 ∈ (on_video_frame staleFrameState 7 envNonKey).2 := by
  decide

/-- C8: teardown closes handles in reverse dependency order: in the
trace of moq_source_disconnect_locked (used by disconnect, shutdown and
reconnect alike) the track close precedes the catalog close, which
precedes the consume, session and origin closes; afterwards every
handle is invalid and the decoder destroyed.  The same ordering holds
for the shutdown path moq_source_destroy. -/
theorem C8_teardown_reverse_order (ctx : MoqSource) :
    List.Chain' (· < ·) ((moq_source_disconnect_locked ctx).2.filterMap closeRank) ∧
    List.Chain' (· < ·) ((moq_source_destroy ctx).2.filterMap closeRank) ∧
    (moq_source_disconnect_locked ctx).1.video_track < 0 ∧
    (moq_source_disconnect_locked ctx).1.catalog_handle < 0 ∧
    (moq_source_disconnect_locked ctx).1.consume < 0 ∧
    (moq_source_disconnect_locked ctx).1.session < 0 ∧
    (moq_source_disconnect_locked ctx).1.origin < 0 ∧
    (moq_source_disconnect_locked ctx).1.codec_ctx = false := by
  obtain ⟨h1, h2, h3, h4, h5, h6⟩ := disc_handles_invalid ctx
  refine ⟨disc_rank_chain ctx, ?_, h1, h2, h3, h4, h5, h6⟩
  unfold moq_source_destroy
  dsimp only
  rw [List.filterMap_append]
  simpa [closeRank] using disc_rank_chain { ctx with shutting_down := true }

/-- C4: a reconnect attempt increments the generation counter (modulo
the uint32 width) exactly once, and it is bumped at the head of the
effect trace, before any handle-opening call; a reconnect requested
while another is in progress is a no-op that leaves the state untouched
and performs no calls. -/
theorem C4_reconnect_generation (ctx : MoqSource) (env : ReconnectEnv) :
    (ctx.reconnect_in_progress = true → moq_source_reconnect ctx env = (ctx, [])) ∧
    (ctx.reconnect_in_progress = false →
      (moq_source_reconnect ctx env).1.generation = (ctx.generation + 1) % UINT32_MOD ∧
      ∃ rest, (moq_source_reconnect ctx env).2 =
          Effect.bumpGeneration ((ctx.generation + 1) % UINT32_MOD) :: rest ∧ noBump rest) := by
  constructor
  · intro h
    unfold moq_source_reconnect
    rw [if_pos (by simp [h])]
  · exact reconnect_shape ctx env

theorem C4_witness :
    (moq_source_reconnect initSource { origin_ret := 1, session_ret := 2 }).1.generation = 1 ∧
    moq_source_reconnect { initSource with reconnect_in_progress := true }
        { origin_ret := 1, session_ret := 2 } =
      ({ initSource with reconnect_in_progress := true }, []) := by
  constructor
  · have h := (C4_reconnect_generation initSource { origin_ret := 1, session_ret := 2 }).2 rfl
    rw [h.1]
    decide
  · exact (C4_reconnect_generation { initSource with reconnect_in_progress := true }
      { origin_ret := 1, session_ret := 2 }).1 rfl

theorem source_eta_settings (ctx : MoqSource) (u b : String)
    (hu : ctx.url = some u) (hb : ctx.broadcast = some b) :
    { ctx with url := some u, broadcast := some b } = ctx := by
  cases ctx
  simp_all

/-- C6: the settings update is idempotent when both stored values are
unchanged (no reconnect, no disconnect, no blank: no effects at all and
the state is untouched); when a setting changes and both new values are
non-empty it triggers a reconnect (generation bump at the head of the
trace); when a setting changes and either value is empty it is treated
as disconnect without reconnect (no open and no generation-bump effect,
the display is blanked, and every handle is invalid afterwards). -/
theorem C6_update_behavior (ctx : MoqSource) (u b : String) (renv : ReconnectEnv) :
    (ctx.url = some u → ctx.broadcast = some b →
      moq_source_update ctx u b renv = (ctx, [])) ∧
    ((settingsChanged ctx.url u || settingsChanged ctx.broadcast b) = true →
      0 < u.length → 0 < b.length → ctx.reconnect_in_progress = false →
      ∃ rest, (moq_source_update ctx u b renv).2 =
          Effect.bumpGeneration ((ctx.generation + 1) % UINT32_MOD) :: rest ∧ noBump rest) ∧
    ((settingsChanged ctx.url u || settingsChanged ctx.broadcast b) = true →
      (u.length = 0 ∨ b.length = 0) →
      (∀ e ∈ (moq_source_update ctx u b renv).2, e.isOpen = false ∧ e.isBump = false) ∧
      Effect.blankVideo ∈ (moq_source_update ctx u b renv).2 ∧
      (moq_source_update ctx u b renv).1.video_track < 0 ∧
      (moq_source_update ctx u b renv).1.catalog_handle < 0 ∧
      (moq_source_update ctx u b renv).1.consume < 0 ∧
      (moq_source_update ctx u b renv).1.session < 0 ∧
      (moq_source_update ctx u b renv).1.origin < 0 ∧
      (moq_source_update ctx u b renv).1.codec_ctx = false) := by
  refine ⟨?_, ?_, ?_⟩
  · intro hu hb
    have h1 : settingsChanged ctx.url u = false := by rw [hu]; simp [settingsChanged]
    have h2 : settingsChanged ctx.broadcast b = false := by rw [hb]; simp [settingsChanged]
    unfold moq_source_update
    rw [h1, h2]
    simp only [Bool.or_self, Bool.false_and, Bool.false_eq_true, if_false]
    rw [source_eta_settings ctx u b hu hb]
  · intro hch hu hb hrip
    unfold moq_source_update
    dsimp only
    rw [if_pos (show ((settingsChanged ctx.url u || settingsChanged ctx.broadcast b) &&
      (decide (0 < u.length) && decide (0 < b.length))) = true by rw [hch]; simp [hu, hb])]
    exact (reconnect_shape { ctx with url := some u, broadcast := some b } renv hrip).2
  · intro hch hempty
    have hv : (decide (0 < u.length) && decide (0 < b.length)) = false := by
      rcases hempty with h | h <;> simp [h]
    unfold moq_source_update
    dsimp only
    rw [if_neg (by simp [hv]), if_pos (by simp [hch, hv])]
    obtain ⟨h1, h2, h3, h4, h5, h6⟩ :=
      disc_handles_invalid { ctx with url := some u, broadcast := some b }
    refine ⟨?_, ?_, h1, h2, h3, h4, h5, h6⟩
    · intro e he
      rcases List.mem_append.mp he with h | h
      · exact ⟨(disc_closes_only h).2.1, (disc_closes_only h).1⟩
      · simp only [List.mem_cons, List.not_mem_nil, or_false] at h
        subst h; exact ⟨rfl, rfl⟩
    · exact List.mem_append.mpr (Or.inr (by simp))

def ctxAB : MoqSource := { initSource with url := some "a", broadcast := some "b" }

theorem C6_witness :
    moq_source_update ctxAB "a" "b" { origin_ret := 1, session_ret := 2 } = (ctxAB, []) ∧
    (∃ rest, (moq_source_update ctxAB "c" "b" { origin_ret := 1, session_ret := 2 }).2 =
        Effect.bumpGeneration ((ctxAB.generation + 1) % UINT32_MOD) :: rest ∧ noBump rest) ∧
    Effect.blankVideo ∈ (moq_source_update ctxAB "" "b" { origin_ret := 1, session_ret := 2 }).2 := by
  refine ⟨?_, ?_, ?_⟩
  · exact (C6_update_behavior ctxAB "a" "b" { origin_ret := 1, session_ret := 2 }).1 rfl rfl
  · exact (C6_update_behavior ctxAB "c" "b" { origin_ret := 1, session_ret := 2 }).2.1
      (by decide) (by decide) (by decide) rfl
  · exact ((C6_update_behavior ctxAB "" "b" { origin_ret := 1, session_ret := 2 }).2.2
      (by decide) (Or.inl rfl)).2.1

theorem mem_decode_error_step {x : Effect} (ctx : MoqSource) (fid : Int)
    {pre : List Effect} (hx : x ∈ pre) : x ∈ (decode_error_step ctx fid pre).2 := by
  unfold decode_error_step
  dsimp only
  split <;> simp [hx]

theorem mem_decode_output {x : Effect} (ctx : MoqSource) (fid : Int) (fd : MoqFrameData)
    (f : DecodedFrame) (env : DecodeEnv) {pre : List Effect} (hx : x ∈ pre) :
    x ∈ (decode_output ctx fid fd f env pre).2 := by
  unfold decode_output
  dsimp only
  split
  · split
    · simp [hx]
    · split
      · simp [hx]
      · split
        · simp [hx]
        · split <;> simp [hx]
  · simp [hx]

theorem mem_send_decode_send (ctx : MoqSource) (fid : Int) (fd : MoqFrameData)
    (env : DecodeEnv) (pre : List Effect) (hpa : env.packet_alloc = true) :
    Effect.sendPacket fd.payload_size (fd.timestamp_us / 1000) ∈
      (decode_send ctx fid fd env pre).2 := by
  unfold decode_send
  dsimp only
  rw [if_neg (by simp [hpa])]
  have hx : Effect.sendPacket fd.payload_size (fd.timestamp_us / 1000) ∈
      pre ++ [Effect.sendPacket fd.payload_size (fd.timestamp_us / 1000)] := by simp
  split
  · split
    · simp
    · exact mem_decode_error_step _ _ hx
  · split
    · simp
    · split
      · split
        · simp
        · exact mem_decode_error_step _ _ hx
      · exact mem_decode_output _ _ _ _ _ hx

theorem decode_skip_eq (ctx : MoqSource) (fid : Int) (env : DecodeEnv) (fd : MoqFrameData)
    (hsd : ctx.shutting_down = false) (hcc : ctx.codec_ctx = true)
    (hk : ctx.got_keyframe = false) (hch : env.chunk = some fd) (hkf : fd.keyframe = false) :
    moq_source_decode_frame ctx fid env =
      ({ ctx with frames_waiting_for_keyframe := ctx.frames_waiting_for_keyframe + 1 },
       [Effect.closeFrame fid]) := by
  unfold moq_source_decode_frame
  rw [hch]
  simp [hsd, hcc, hk, hkf]

theorem decode_seq_skip (ctx : MoqSource) (envs : List DecodeEnv)
    (hsd : ctx.shutting_down = false) (hcc : ctx.codec_ctx = true)
    (hk : ctx.got_keyframe = false)
    (hall : ∀ e ∈ envs, ∃ fd, e.chunk = some fd ∧ fd.keyframe = false) :
    moq_decode_seq ctx envs =
      ({ ctx with frames_waiting_for_keyframe :=
          ctx.frames_waiting_for_keyframe + envs.length },
       List.replicate envs.length (Effect.closeFrame 0)) := by
  induction envs generalizing ctx with
  | nil =>
    unfold moq_decode_seq
    rfl
  | cons e rest ih =>
    obtain ⟨fd, hch, hkf⟩ := hall e (by simp)
    unfold moq_decode_seq
    dsimp only
    rw [decode_skip_eq ctx 0 e fd hsd hcc hk hch hkf]
    dsimp only
    rw [ih { ctx with frames_waiting_for_keyframe := ctx.frames_waiting_for_keyframe + 1 }
      hsd hcc hk (fun x hx => hall x (by simp [hx]))]
    simp only [List.length_cons, List.replicate_succ, List.singleton_append,
      Prod.mk.injEq]
    exact ⟨by congr 1; omega, trivial⟩

/-- C2: keyframe gating.  While the keyframe flag is false, every
non-keyframe unit is counted in the skip counter and discarded without
touching the decoder: over any run of non-keyframe units the pipeline
performs no packet submission and no image delivery and the counter
grows by the run length; and the first keyframe unit that follows is
submitted to the decoder. -/
theorem C2_keyframe_gating (ctx : MoqSource) (envs : List DecodeEnv)
    (hsd : ctx.shutting_down = false) (hcc : ctx.codec_ctx = true)
    (hk : ctx.got_keyframe = false)
    (hall : ∀ e ∈ envs, ∃ fd, e.chunk = some fd ∧ fd.keyframe = false) :
    (∀ e ∈ (moq_decode_seq ctx envs).2, e.isSend = false ∧ e.isOutput = false) ∧
    (moq_decode_seq ctx envs).1.frames_waiting_for_keyframe =
      ctx.frames_waiting_for_keyframe + envs.length ∧
    (∀ env2 fd2, env2.chunk = some fd2 → fd2.keyframe = true → env2.packet_alloc = true →
      Effect.sendPacket fd2.payload_size (fd2.timestamp_us / 1000) ∈
        (moq_source_decode_frame (moq_decode_seq ctx envs).1 0 env2).2) := by
  rw [decode_seq_skip ctx envs hsd hcc hk hall]
  refine ⟨?_, rfl, ?_⟩
  · intro e he
    rw [List.eq_of_mem_replicate he]
    exact ⟨rfl, rfl⟩
  · intro env2 fd2 hch2 hkf2 hpa2
    unfold moq_source_decode_frame
    rw [hch2]
    simp only [hsd, hcc, hkf2, hk]
    rw [if_neg (by simp [hsd]), if_neg (by simp [hcc]), if_neg (by simp [hkf2])]
    exact mem_send_decode_send _ _ _ _ _ hpa2

def envKey : DecodeEnv :=
  { envNonKey with chunk := some { keyframe := true, payload_size := 200, timestamp_us := 2000 } }

theorem C2_witness :
    (∀ e ∈ (moq_decode_seq { staleFrameState with generation := 1 }
        [envNonKey, envNonKey]).2, e.isSend = false ∧ e.isOutput = false) ∧
    Effect.sendPacket 200 2 ∈
      (moq_source_decode_frame (moq_decode_seq { staleFrameState with generation := 1 }
        [envNonKey, envNonKey]).1 0 envKey).2 := by
  have h := C2_keyframe_gating { staleFrameState with generation := 1 } [envNonKey, envNonKey]
    rfl rfl rfl
    (by intro e he
        simp only [List.mem_cons, List.not_mem_nil, or_false] at he
        rcases he with rfl | rfl <;>
          exact ⟨{ keyframe := false, payload_size := 100, timestamp_us := 1000 }, rfl, rfl⟩)
  exact ⟨h.1, h.2.2 envKey { keyframe := true, payload_size := 200, timestamp_us := 2000 } rfl rfl rfl⟩

theorem decode_ungated_eq (ctx : MoqSource) (fid : Int) (env : DecodeEnv) (fd : MoqFrameData)
    (hsd : ctx.shutting_down = false) (hcc : ctx.codec_ctx = true)
    (hk : ctx.got_keyframe = true) (hch : env.chunk = some fd) (hkf : fd.keyframe = false) :
    moq_source_decode_frame ctx fid env = decode_send ctx fid fd env [] := by
  unfold moq_source_decode_frame
  rw [hch]
  simp [hsd, hcc, hk, hkf, mark_keyframe]

theorem decode_output_got (ctx : MoqSource) (fid : Int) (fd : MoqFrameData)
    (f : DecodedFrame) (env : DecodeEnv) (pre : List Effect) :
    (decode_output ctx fid fd f env pre).1.got_keyframe = ctx.got_keyframe := by
  unfold decode_output
  dsimp only
  split
  · split
    · rfl
    · split
      · rfl
      · split
        · rfl
        · split
          · rfl
          · rfl
  · rfl

theorem decode_output_outputs (ctx : MoqSource) (fid : Int) (fd : MoqFrameData)
    (f : DecodedFrame) (env : DecodeEnv) (pre : List Effect)
    (hw : 0 < f.width) (hh : 0 < f.height) (hw2 : f.width ≤ 16384) (hh2 : f.height ≤ 16384)
    (hfmt : f.format ≠ AV_PIX_FMT_NONE) (hsws : env.sws_ok = true) (hm : env.malloc_ok = true) :
    ∃ w h, Effect.outputVideo w h fd.timestamp_us ∈ (decode_output ctx fid fd f env pre).2 := by
  unfold decode_output
  dsimp only
  split
  · split
    · next h => exact absurd h (by simp only [not_or, not_le, not_lt]; exact ⟨hw, hh, hw2, hh2⟩)
    · split
      · next h => simp [hsws] at h
      · split
        · next h => simp [hm] at h
        · exact ⟨f.width.toNat, f.height.toNat, by simp⟩
  · exact ⟨ctx.frame_width, ctx.frame_height, by simp⟩

/-- C3: bounded decode-error recovery.  A needs-more-input result from
either the submit or the receive step leaves the state (in particular
the consecutive-error counter) untouched; any other failure, on the
submit side or on the receive side, increments the counter, and when it
reaches the threshold 5 the pipeline flushes the decoder and resets the
counter and the keyframe flag; after that, a keyframe unit that decodes
successfully is accepted (keyframe flag set) and an image is delivered
again. -/
theorem C3_error_recovery (ctx : MoqSource) (fid : Int) (env : DecodeEnv) (fd : MoqFrameData)
    (hsd : ctx.shutting_down = false) (hcc : ctx.codec_ctx = true)
    (hk : ctx.got_keyframe = true) (hch : env.chunk = some fd)
    (hkf : fd.keyframe = false) (hpa : env.packet_alloc = true) :
    (env.send_ret = AVERROR_EAGAIN → (moq_source_decode_frame ctx fid env).1 = ctx) ∧
    (0 ≤ env.send_ret → env.frame_alloc = true → env.recv_ret = AVERROR_EAGAIN →
      (moq_source_decode_frame ctx fid env).1 = ctx) ∧
    (env.send_ret < 0 → env.send_ret ≠ AVERROR_EAGAIN →
      ((moq_source_decode_frame ctx fid env).1.consecutive_decode_errors =
        if 5 ≤ ctx.consecutive_decode_errors + 1 then 0
        else ctx.consecutive_decode_errors + 1) ∧
      (4 ≤ ctx.consecutive_decode_errors →
        (moq_source_decode_frame ctx fid env).1.got_keyframe = false ∧
        Effect.flushDecoder ∈ (moq_source_decode_frame ctx fid env).2)) ∧
    (0 ≤ env.send_ret → env.frame_alloc = true → env.recv_ret < 0 →
      env.recv_ret ≠ AVERROR_EAGAIN →
      ((moq_source_decode_frame ctx fid env).1.consecutive_decode_errors =
        if 5 ≤ ctx.consecutive_decode_errors + 1 then 0
        else ctx.consecutive_decode_errors + 1) ∧
      (4 ≤ ctx.consecutive_decode_errors →
        (moq_source_decode_frame ctx fid env).1.got_keyframe = false ∧
        Effect.flushDecoder ∈ (moq_source_decode_frame ctx fid env).2)) ∧
    (∀ ctx2 env2 fd2, ctx2.shutting_down = false → ctx2.codec_ctx = true →
      ctx2.got_keyframe = false → env2.chunk = some fd2 → fd2.keyframe = true →
      env2.packet_alloc = true → 0 ≤ env2.send_ret → env2.frame_alloc = true →
      0 ≤ env2.recv_ret → 0 < env2.decoded.width → 0 < env2.decoded.height →
      env2.decoded.width ≤ 16384 → env2.decoded.height ≤ 16384 →
      env2.decoded.format ≠ AV_PIX_FMT_NONE → env2.sws_ok = true → env2.malloc_ok = true →
      (moq_source_decode_frame ctx2 0 env2).1.got_keyframe = true ∧
      ∃ w h, Effect.outputVideo w h fd2.timestamp_us ∈
        (moq_source_decode_frame ctx2 0 env2).2) := by
  have heq := decode_ungated_eq ctx fid env fd hsd hcc hk hch hkf
  refine ⟨?_, ?_, ?_, ?_, ?_⟩
  · intro hs
    rw [heq]
    unfold decode_send
    dsimp only
    rw [if_neg (by simp [hpa]), if_pos (show env.send_ret < 0 by rw [hs]; decide), if_pos hs]
  · intro hs hfa hr
    rw [heq]
    unfold decode_send
    dsimp only
    rw [if_neg (by simp [hpa]), if_neg (not_lt.mpr hs), if_neg (by simp [hfa]),
      if_pos (show env.recv_ret < 0 by rw [hr]; decide), if_pos hr]
  · intro hs hne
    rw [heq]
    unfold decode_send
    dsimp only
    rw [if_neg (by simp [hpa]), if_pos hs, if_neg hne]
    unfold decode_error_step
    dsimp only
    split
    · next h5 =>
      exact ⟨rfl, fun h4 => ⟨rfl, by simp⟩⟩
    · next h5 =>
      exact ⟨rfl, fun h4 => absurd (by omega) h5⟩
  · intro hs hfa hr hne
    rw [heq]
    unfold decode_send
    dsimp only
    rw [if_neg (by simp [hpa]), if_neg (not_lt.mpr hs), if_neg (by simp [hfa]),
      if_pos hr, if_neg hne]
    unfold decode_error_step
    dsimp only
    split
    · next h5 =>
      exact ⟨rfl, fun h4 => ⟨rfl, by simp⟩⟩
    · next h5 =>
      exact ⟨rfl, fun h4 => absurd (by omega) h5⟩
  · intro ctx2 env2 fd2 h1 h2 h3 h4 h5 h6 h7 h8 h9 h10 h11 h12 h13 h14 h15 h16
    have heq2 : moq_source_decode_frame ctx2 0 env2 =
        decode_send (mark_keyframe ctx2 true) 0 fd2 env2 [Effect.flushDecoder] := by
      unfold moq_source_decode_frame
      rw [h4]
      simp [h1, h2, h3, h5]
    rw [heq2]
    unfold decode_send
    dsimp only
    rw [if_neg (by simp [h6]), if_neg (not_lt.mpr h7), if_neg (by simp [h8]),
      if_neg (not_lt.mpr h9)]
    constructor
    · rw [decode_output_got]
      simp [mark_keyframe]
    · exact decode_output_outputs _ _ _ _ _ _ h10 h11 h12 h13 h14 h15 h16

def ctxGotKey : MoqSource := { staleFrameState with got_keyframe := true }

def envEagain : DecodeEnv := { envNonKey with send_ret := AVERROR_EAGAIN }

def envRecvErr : DecodeEnv := { envNonKey with recv_ret := -22 }

theorem C3_witness :
    (moq_source_decode_frame ctxGotKey 1 envEagain).1 = ctxGotKey ∧
    (moq_source_decode_frame ctxGotKey 1 envRecvErr).1.consecutive_decode_errors = 1 := by
  constructor
  · exact (C3_error_recovery ctxGotKey 1 envEagain
      { keyframe := false, payload_size := 100, timestamp_us := 1000 }
      rfl rfl rfl rfl rfl rfl).1 rfl
  · have h := (C3_error_recovery ctxGotKey 1 envRecvErr
      { keyframe := false, payload_size := 100, timestamp_us := 1000 }
      rfl rfl rfl rfl rfl rfl).2.2.2.1 (by decide) rfl (by decide) (by decide)
    rw [h.1]
    decide

theorem mark_fields (ctx : MoqSource) (kf : Bool) :
    (mark_keyframe ctx kf).sws_ctx = ctx.sws_ctx ∧
    (mark_keyframe ctx kf).frame_buffer = ctx.frame_buffer ∧
    (mark_keyframe ctx kf).frame_width = ctx.frame_width ∧
    (mark_keyframe ctx kf).frame_height = ctx.frame_height ∧
    (mark_keyframe ctx kf).current_pix_fmt = ctx.current_pix_fmt := by
  unfold mark_keyframe
  split <;> exact ⟨rfl, rfl, rfl, rfl, rfl⟩

theorem decode_send_success_eq (ctx : MoqSource) (fid : Int) (fd : MoqFrameData)
    (env : DecodeEnv) (pre : List Effect) (hpa : env.packet_alloc = true)
    (hs : 0 ≤ env.send_ret) (hfa : env.frame_alloc = true) (hr : 0 ≤ env.recv_ret) :
    decode_send ctx fid fd env pre =
      decode_output { ctx with consecutive_decode_errors := 0 } fid fd env.decoded env
        (pre ++ [Effect.sendPacket fd.payload_size (fd.timestamp_us / 1000)]) := by
  unfold decode_send
  dsimp only
  rw [if_neg (show ¬(env.packet_alloc = false) by simp [hpa]), if_neg (not_lt.mpr hs),
    if_neg (show ¬(env.frame_alloc = false) by simp [hfa]), if_neg (not_lt.mpr hr)]

theorem decode_output_invalid (ctx : MoqSource) (fid : Int) (fd : MoqFrameData)
    (f : DecodedFrame) (env : DecodeEnv) (pre : List Effect)
    (hreinit : ctx.sws_ctx = Option.none ∨ ctx.frame_buffer = Option.none ∨
      (f.width ≠ (ctx.frame_width : Int) ∨ f.height ≠ (ctx.frame_height : Int)) ∨
      f.format ≠ ctx.current_pix_fmt)
    (hbad : (f.width ≤ 0 ∨ f.height ≤ 0 ∨ 16384 < f.width ∨ 16384 < f.height) ∨
      f.format = AV_PIX_FMT_NONE) :
    decode_output ctx fid fd f env pre = (ctx, pre ++ [Effect.closeFrame fid]) := by
  unfold decode_output
  dsimp only
  rw [if_pos hreinit]
  rcases hbad with h | h
  · rw [if_pos h]
  · split
    · rfl
    · rfl

theorem inv_mark (ctx : MoqSource) (kf : Bool) (h : bufferSizeInv ctx) :
    bufferSizeInv (mark_keyframe ctx kf) := by
  unfold mark_keyframe
  split <;> exact h

theorem inv_error_step (ctx : MoqSource) (fid : Int) (pre : List Effect)
    (h : bufferSizeInv ctx) : bufferSizeInv (decode_error_step ctx fid pre).1 := by
  unfold decode_error_step
  dsimp only
  split <;> exact h

theorem inv_output (ctx : MoqSource) (fid : Int) (fd : MoqFrameData) (f : DecodedFrame)
    (env : DecodeEnv) (pre : List Effect) (h : bufferSizeInv ctx) :
    bufferSizeInv (decode_output ctx fid fd f env pre).1 := by
  unfold decode_output
  dsimp only
  split
  · split
    · exact h
    · split
      · exact h
      · split
        · exact h
        · split
          · exact h
          · exact Or.inr rfl
  · exact h

theorem inv_send (ctx : MoqSource) (fid : Int) (fd : MoqFrameData) (env : DecodeEnv)
    (pre : List Effect) (h : bufferSizeInv ctx) :
    bufferSizeInv (decode_send ctx fid fd env pre).1 := by
  unfold decode_send
  dsimp only
  split
  · exact h
  · split
    · split
      · exact h
      · exact inv_error_step _ _ _ h
    · split
      · exact h
      · split
        · split
          · exact h
          · exact inv_error_step _ _ _ h
        · exact inv_output _ _ _ _ _ _ h

theorem inv_decode_frame (ctx : MoqSource) (fid : Int) (env : DecodeEnv)
    (h : bufferSizeInv ctx) : bufferSizeInv (moq_source_decode_frame ctx fid env).1 := by
  unfold moq_source_decode_frame
  split
  · exact h
  · split
    · exact h
    · split
      · exact h
      · split
        · exact h
        · exact inv_send _ _ _ _ _ (inv_mark _ _ h)

theorem init_decoder_cases (ctx : MoqSource) (cfg : VideoConfig) (ienv : InitEnv) :
    moq_source_init_decoder ctx cfg ienv = (ctx, false) ∨
    ((moq_source_init_decoder ctx cfg ienv).2 = true ∧
     (moq_source_init_decoder ctx cfg ienv).1.frame_buffer = Option.none ∧
     (moq_source_init_decoder ctx cfg ienv).1.sws_ctx = Option.none ∧
     (moq_source_init_decoder ctx cfg ienv).1.got_keyframe = false) := by
  unfold moq_source_init_decoder
  dsimp only
  split
  · exact Or.inl rfl
  · split
    · exact Or.inl rfl
    · split
      · exact Or.inl rfl
      · split
        · exact Or.inl rfl
        · exact Or.inr ⟨rfl, rfl, rfl, rfl⟩

/-- C5: the output pixel buffer, when allocated, always holds
width times height times 4 bytes for the current frame dimensions:
the per-frame decode step preserves this invariant; right after decoder
configuration the buffer is unallocated; and a successful rebuild
allocates the buffer from the decoded frame dimensions. -/
theorem C5_buffer_size (ctx : MoqSource) (fid : Int) (denv : DecodeEnv)
    (cfg : VideoConfig) (ienv : InitEnv) (fd : MoqFrameData) (f : DecodedFrame)
    (pre : List Effect) :
    (bufferSizeInv ctx → bufferSizeInv (moq_source_decode_frame ctx fid denv).1) ∧
    ((moq_source_init_decoder ctx cfg ienv).2 = true →
      (moq_source_init_decoder ctx cfg ienv).1.frame_buffer = Option.none) ∧
    (ctx.sws_ctx = Option.none → 0 < f.width → 0 < f.height →
      f.width ≤ 16384 → f.height ≤ 16384 → f.format ≠ AV_PIX_FMT_NONE →
      denv.sws_ok = true → denv.malloc_ok = true →
      (decode_output ctx fid fd f denv pre).1.frame_width = f.width.toNat ∧
      (decode_output ctx fid fd f denv pre).1.frame_height = f.height.toNat ∧
      (decode_output ctx fid fd f denv pre).1.frame_buffer =
        some (f.width.toNat * f.height.toNat * 4)) := by
  refine ⟨inv_decode_frame ctx fid denv, ?_, ?_⟩
  · intro hok
    rcases init_decoder_cases ctx cfg ienv with h | h
    · rw [h] at hok
      simp at hok
    · exact h.2.1
  · intro hsws hw hh hw2 hh2 hfmt hso hmo
    unfold decode_output
    dsimp only
    rw [if_pos (Or.inl hsws)]
    split
    · next hbad => exact absurd hbad (by simp only [not_or, not_le, not_lt]; exact ⟨hw, hh, hw2, hh2⟩)
    · split
      · next hb => simp [hso] at hb
      · split
        · next hb => simp [hmo] at hb
        · exact ⟨rfl, rfl, rfl⟩

def cfgH264 : VideoConfig :=
  { codec := "h264", coded_width := some 1280, coded_height := some 720, description_len := 10 }

def ienvOK : InitEnv :=
  { decoder_found := true, alloc_ctx_ok := true, open_ok := true,
    parsed_width := 0, parsed_height := 0 }

theorem C5_witness :
    bufferSizeInv (moq_source_decode_frame initSource 0 envNonKey).1 ∧
    (moq_source_init_decoder initSource cfgH264 ienvOK).1.frame_buffer = Option.none := by
  constructor
  · exact (C5_buffer_size initSource 0 envNonKey cfgH264 ienvOK
      { keyframe := false, payload_size := 1, timestamp_us := 0 }
      { width := 640, height := 360, format := 0 } []).1 (Or.inl rfl)
  · exact (C5_buffer_size initSource 0 envNonKey cfgH264 ienvOK
      { keyframe := false, payload_size := 1, timestamp_us := 0 }
      { width := 640, height := 360, format := 0 } []).2.1 (by decide)

/-- C9: whenever the conversion path must be rebuilt, the decoded
dimensions are validated to be positive and at most 16384 and the pixel
format to be recognized; a frame failing validation is discarded (its
handle closed) with no allocation attempted and with the conversion
context, pixel buffer, frame dimensions and pixel format all left
unchanged. -/
theorem C9_dimension_validation (ctx : MoqSource) (fid : Int) (env : DecodeEnv)
    (fd : MoqFrameData)
    (hsd : ctx.shutting_down = false) (hcc : ctx.codec_ctx = true)
    (hk : ctx.got_keyframe = true) (hch : env.chunk = some fd) (hpa : env.packet_alloc = true)
    (hs : 0 ≤ env.send_ret) (hfa : env.frame_alloc = true) (hr : 0 ≤ env.recv_ret)
    (hreinit : ctx.sws_ctx = Option.none ∨ ctx.frame_buffer = Option.none ∨
      (env.decoded.width ≠ (ctx.frame_width : Int) ∨
       env.decoded.height ≠ (ctx.frame_height : Int)) ∨
      env.decoded.format ≠ ctx.current_pix_fmt)
    (hbad : (env.decoded.width ≤ 0 ∨ env.decoded.height ≤ 0 ∨
        16384 < env.decoded.width ∨ 16384 < env.decoded.height) ∨
      env.decoded.format = AV_PIX_FMT_NONE) :
    (moq_source_decode_frame ctx fid env).1.sws_ctx = ctx.sws_ctx ∧
    (moq_source_decode_frame ctx fid env).1.frame_buffer = ctx.frame_buffer ∧
    (moq_source_decode_frame ctx fid env).1.frame_width = ctx.frame_width ∧
    (moq_source_decode_frame ctx fid env).1.frame_height = ctx.frame_height ∧
    (moq_source_decode_frame ctx fid env).1.current_pix_fmt = ctx.current_pix_fmt ∧
    Effect.closeFrame fid ∈ (moq_source_decode_frame ctx fid env).2 ∧
    ∀ e ∈ (moq_source_decode_frame ctx fid env).2, e.isAlloc = false := by
  obtain ⟨m1, m2, m3, m4, m5⟩ := mark_fields ctx fd.keyframe
  have heq : moq_source_decode_frame ctx fid env =
      decode_send (mark_keyframe ctx fd.keyframe) fid fd env [] := by
    unfold moq_source_decode_frame
    rw [hch]
    simp [hsd, hcc, hk]
  have hre : ({ mark_keyframe ctx fd.keyframe with
        consecutive_decode_errors := 0 } : MoqSource).sws_ctx = Option.none ∨
      ({ mark_keyframe ctx fd.keyframe with
        consecutive_decode_errors := 0 } : MoqSource).frame_buffer = Option.none ∨
      (env.decoded.width ≠ (({ mark_keyframe ctx fd.keyframe with
          consecutive_decode_errors := 0 } : MoqSource).frame_width : Int) ∨
       env.decoded.height ≠ (({ mark_keyframe ctx fd.keyframe with
          consecutive_decode_errors := 0 } : MoqSource).frame_height : Int)) ∨
      env.decoded.format ≠ ({ mark_keyframe ctx fd.keyframe with
        consecutive_decode_errors := 0 } : MoqSource).current_pix_fmt := by
    dsimp only
    rw [m1, m2, m3, m4, m5]
    exact hreinit
  rw [heq, decode_send_success_eq _ _ _ _ _ hpa hs hfa hr,
    decode_output_invalid _ _ _ _ _ _ hre hbad]
  dsimp only
  rw [m1, m2, m3, m4, m5]
  refine ⟨rfl, rfl, rfl, rfl, rfl, by simp, ?_⟩
  intro e he
  simp only [List.nil_append, List.mem_append, List.mem_cons, List.not_mem_nil,
    or_false] at he
  rcases he with rfl | rfl <;> rfl

def envBadDims : DecodeEnv :=
  { envNonKey with decoded := { width := 30000, height := 360, format := 0 } }

theorem C9_witness :
    (moq_source_decode_frame ctxGotKey 2 envBadDims).1.sws_ctx = ctxGotKey.sws_ctx ∧
    (moq_source_decode_frame ctxGotKey 2 envBadDims).1.frame_buffer = ctxGotKey.frame_buffer ∧
    Effect.closeFrame 2 ∈ (moq_source_decode_frame ctxGotKey 2 envBadDims).2 := by
  have h := C9_dimension_validation ctxGotKey 2 envBadDims
    { keyframe := false, payload_size := 100, timestamp_us := 1000 }
    rfl rfl rfl rfl rfl (by decide) rfl (by decide)
    (Or.inl rfl) (Or.inl (by decide))
  exact ⟨h.1, h.2.1, h.2.2.2.2.2.1⟩

/-- C7: on catalog delivery, after the decoder is configured and the
track subscription issued, the track and catalog handles are installed
into the registry only if the generation observed at the install step
still equals the generation captured at callback entry; otherwise the
state is left unmutated and both handles are closed immediately, track
first. -/
theorem C7_catalog_install (ctx : MoqSource) (catalog : Int) (env : CatalogEnv)
    (cfg : VideoConfig)
    (hsd : ctx.shutting_down = false) (hcons : 0 ≤ ctx.consume) (hcat : 0 ≤ catalog)
    (hcfg : env.config_ret = some cfg)
    (hinit : (moq_source_init_decoder ctx cfg env.init_env).2 = true)
    (htr : 0 ≤ env.track_ret) :
    ((env.mid (moq_source_init_decoder ctx cfg env.init_env).1).generation =
        ctx.generation →
      on_catalog ctx catalog env =
        ({ env.mid (moq_source_init_decoder ctx cfg env.init_env).1 with
            video_track := env.track_ret, catalog_handle := catalog },
         [Effect.subscribeTrack])) ∧
    ((env.mid (moq_source_init_decoder ctx cfg env.init_env).1).generation ≠
        ctx.generation →
      on_catalog ctx catalog env =
        (env.mid (moq_source_init_decoder ctx cfg env.init_env).1,
         [Effect.subscribeTrack, Effect.closeTrack env.track_ret,
          Effect.closeCatalog catalog])) := by
  constructor
  · intro hgen
    unfold on_catalog
    rw [if_neg (show ¬(ctx.shutting_down = true) by simp [hsd]),
      if_neg (not_lt.mpr hcons), if_neg (not_lt.mpr hcat), hcfg]
    dsimp only
    rw [if_neg (show ¬((moq_source_init_decoder ctx cfg env.init_env).2 = false) by
        simp [hinit]),
      if_neg (not_lt.mpr htr), if_pos hgen]
  · intro hgen
    unfold on_catalog
    rw [if_neg (show ¬(ctx.shutting_down = true) by simp [hsd]),
      if_neg (not_lt.mpr hcons), if_neg (not_lt.mpr hcat), hcfg]
    dsimp only
    rw [if_neg (show ¬((moq_source_init_decoder ctx cfg env.init_env).2 = false) by
        simp [hinit]),
      if_neg (not_lt.mpr htr), if_neg hgen]

def catEnvSame : CatalogEnv :=
  { config_ret := some cfgH264, init_env := ienvOK, track_ret := 9, mid := fun s => s }

def catEnvStale : CatalogEnv :=
  { config_ret := some cfgH264, init_env := ienvOK, track_ret := 9,
    mid := fun s => { s with generation := s.generation + 1 } }

theorem C7_witness :
    on_catalog staleFrameState 4 catEnvSame =
      ({ (moq_source_init_decoder staleFrameState cfgH264 ienvOK).1 with
          video_track := 9, catalog_handle := 4 }, [Effect.subscribeTrack]) ∧
    on_catalog staleFrameState 4 catEnvStale =
      ({ (moq_source_init_decoder staleFrameState cfgH264 ienvOK).1 with
          generation := staleFrameState.generation + 1 },
       [Effect.subscribeTrack, Effect.closeTrack 9, Effect.closeCatalog 4]) := by
  constructor
  · exact (C7_catalog_install staleFrameState 4 catEnvSame cfgH264
      rfl (by decide) (by decide) rfl (by decide) (by decide)).1 (by decide)
  · exact (C7_catalog_install staleFrameState 4 catEnvStale cfgH264
      rfl (by decide) (by decide) rfl (by decide) (by decide)).2 (by decide)

end MoqObs
